import Mathlib

/-!
Shallow embedding of the per-resource-type caching subsystem of the
`go-mcp` repository (`internal/appcontext` plus the two list handlers in
`internal/tools/argo`), used to settle the spec claims.

Modelling conventions:
* Go `time.Time` instants and `time.Duration` values are nanosecond counts,
  embedded as `Int`; `t.After(u)` is the strict comparison `t > u`,
  exactly as in Go's `time` package.
* The on-disk context directory is a record of three file slots
  (`cluster_cache.json`, `application_cache.json`, `server_config.json`).
  A slot is `missing`, unreadable (`readError`, an `os.ReadFile` failure
  that is not `IsNotExist`), or holds a JSON document.
* JSON is a small structural inductive; `encoding/json` marshalling of the
  cache structs is a direct structural mapping (object with keys `items`,
  `cached_at`, `expires_at`), and unmarshalling follows Go's rules for
  these shapes: a missing field keeps the zero value, `null` keeps the
  zero value, a wrong-typed field is a decode error, a non-object document
  is a decode error.  `time.Time` values are kept as their instant.
* The upstream ArgoCD client is the injected fetch capability; one call of
  `refresh` observes one `FetchOutcome`: client-construction failure,
  list-call failure, or a fetched item list (matching the two error exits
  of `RefreshClusterCache` / `RefreshApplicationCache`).
* Each operation takes the observation instant `now` explicitly; a
  sequential handler invocation is modelled at a single instant.
* Log output is not modelled except where a claim mentions it: `invalidate`
  reports whether its `os.Remove` result would have been logged as a
  warning (an error other than `IsNotExist`).
-/

namespace GoMcp

/-- Instants, as in Go `time.Time` (nanoseconds on one clock). -/
abbrev Time := Int

/-- Durations, as in Go `time.Duration` (nanoseconds, possibly non-positive). -/
abbrev Duration := Int

/-- Go `t.After(u)`: strictly later. -/
def timeAfter (t u : Time) : Bool := t > u

/-- Model of `v1alpha1.Cluster`: the fields the subsystem reads. -/
structure Cluster where
  name : String
  server : String
deriving DecidableEq, Repr

/-- Model of `v1alpha1.Application`: the fields the subsystem reads
(`ObjectMeta.Namespace`, `Spec.Project`, `Spec.Destination.Server`). -/
structure Application where
  name : String
  metaNamespace : String
  project : String
  destinationServer : String
deriving DecidableEq, Repr

/-- `ClusterCache` from `cluster_cache.go`: items plus capture and expiry
instants. -/
structure ClusterCache where
  items : List Cluster
  cachedAt : Time
  expiresAt : Time
deriving DecidableEq, Repr

/-- `ApplicationCache` from `application_cache.go`. -/
structure ApplicationCache where
  items : List Application
  cachedAt : Time
  expiresAt : Time
deriving DecidableEq, Repr

/-- `ServerConfig` from `context.go`: the persisted server identity. -/
structure ServerConfig where
  server : String
  savedAt : Time
deriving DecidableEq, Repr

/-- Structural JSON documents, the codomain of `encoding/json` marshalling. -/
inductive Json where
  | null : Json
  | bool (b : Bool) : Json
  | num (n : Int) : Json
  | str (s : String) : Json
  | arr (xs : List Json) : Json
  | obj (fields : List (String × Json)) : Json
deriving Repr

/-- First binding of a key in a JSON object (encoded objects have distinct
keys, so this is the Go lookup). -/
def jsonGetField : List (String × Json) → String → Option Json
  | [], _ => none
  | (k, v) :: rest, key => if k = key then some v else jsonGetField rest key

/-- Go unmarshalling of a string-typed struct field: absent or `null` keeps
the zero value `""`; a non-string value is a type error. -/
def decodeStringField (fields : List (String × Json)) (key : String) : Option String :=
  match jsonGetField fields key with
  | none => some ""
  | some (Json.str s) => some s
  | some Json.null => some ""
  | some _ => none

/-- Go unmarshalling of a `time.Time` struct field: absent or `null` keeps
the zero instant; a non-instant value is a type error. -/
def decodeTimeField (fields : List (String × Json)) (key : String) : Option Time :=
  match jsonGetField fields key with
  | none => some 0
  | some (Json.num n) => some n
  | some Json.null => some 0
  | some _ => none

/-- Marshalling of one cluster record. -/
def encodeCluster (c : Cluster) : Json :=
  Json.obj [("name", Json.str c.name), ("server", Json.str c.server)]

/-- Unmarshalling of one cluster record. -/
def decodeCluster : Json → Option Cluster
  | Json.obj fields => do
      let n ← decodeStringField fields "name"
      let sv ← decodeStringField fields "server"
      pure ⟨n, sv⟩
  | _ => none

/-- Marshalling of one application record. -/
def encodeApplication (a : Application) : Json :=
  Json.obj [("name", Json.str a.name), ("namespace", Json.str a.metaNamespace),
            ("project", Json.str a.project), ("destinationServer", Json.str a.destinationServer)]

/-- Unmarshalling of one application record. -/
def decodeApplication : Json → Option Application
  | Json.obj fields => do
      let n ← decodeStringField fields "name"
      let ns ← decodeStringField fields "namespace"
      let pj ← decodeStringField fields "project"
      let ds ← decodeStringField fields "destinationServer"
      pure ⟨n, ns, pj, ds⟩
  | _ => none

/-- Element-wise unmarshalling of an array of cluster records. -/
def decodeClusterArray : List Json → Option (List Cluster)
  | [] => some []
  | j :: rest => do
      let c ← decodeCluster j
      let cs ← decodeClusterArray rest
      pure (c :: cs)

/-- Go unmarshalling of the `items` slice: absent or `null` keeps the nil
slice; a non-array value is a type error. -/
def decodeClusterItems : Json → Option (List Cluster)
  | Json.null => some []
  | Json.arr xs => decodeClusterArray xs
  | _ => none

/-- Element-wise unmarshalling of an array of application records. -/
def decodeApplicationArray : List Json → Option (List Application)
  | [] => some []
  | j :: rest => do
      let a ← decodeApplication j
      let as ← decodeApplicationArray rest
      pure (a :: as)

/-- Go unmarshalling of the application `items` slice. -/
def decodeApplicationItems : Json → Option (List Application)
  | Json.null => some []
  | Json.arr xs => decodeApplicationArray xs
  | _ => none

/-- `json.MarshalIndent` of a `ClusterCache` (`writeClusterCacheToDisk`). -/
def encodeClusterCache (c : ClusterCache) : Json :=
  Json.obj [("items", Json.arr (c.items.map encodeCluster)),
            ("cached_at", Json.num c.cachedAt),
            ("expires_at", Json.num c.expiresAt)]

/-- `json.Unmarshal` into a `ClusterCache` (`loadClusterCacheFromDisk`). -/
def decodeClusterCache : Json → Option ClusterCache
  | Json.obj fields => do
      let items ← match jsonGetField fields "items" with
        | none => some []
        | some v => decodeClusterItems v
      let ca ← decodeTimeField fields "cached_at"
      let ea ← decodeTimeField fields "expires_at"
      pure ⟨items, ca, ea⟩
  | _ => none

/-- `json.MarshalIndent` of an `ApplicationCache`. -/
def encodeApplicationCache (c : ApplicationCache) : Json :=
  Json.obj [("items", Json.arr (c.items.map encodeApplication)),
            ("cached_at", Json.num c.cachedAt),
            ("expires_at", Json.num c.expiresAt)]

/-- `json.Unmarshal` into an `ApplicationCache`. -/
def decodeApplicationCache : Json → Option ApplicationCache
  | Json.obj fields => do
      let items ← match jsonGetField fields "items" with
        | none => some []
        | some v => decodeApplicationItems v
      let ca ← decodeTimeField fields "cached_at"
      let ea ← decodeTimeField fields "expires_at"
      pure ⟨items, ca, ea⟩
  | _ => none

/-- `json.MarshalIndent` of a `ServerConfig` (`saveServerConfig`). -/
def encodeServerConfig (c : ServerConfig) : Json :=
  Json.obj [("server", Json.str c.server), ("saved_at", Json.num c.savedAt)]

/-- `json.Unmarshal` into a `ServerConfig` (`hasServerChanged`). -/
def decodeServerConfig : Json → Option ServerConfig
  | Json.obj fields => do
      let sv ← decodeStringField fields "server"
      let sa ← decodeTimeField fields "saved_at"
      pure ⟨sv, sa⟩
  | _ => none

/-- One file slot of the context directory. -/
inductive FileState where
  | missing : FileState
  | readError : FileState
  | content (j : Json) : FileState
deriving Repr

/-- The context directory: one slot per persisted entity. -/
structure Disk where
  clusterFile : FileState
  applicationFile : FileState
  serverConfigFile : FileState
deriving Repr

/-- The mutable state of an `AppContext` together with its directory. -/
structure AppState where
  argoServer : String
  clusterCache : Option ClusterCache
  applicationCache : Option ApplicationCache
  disk : Disk
deriving Repr

/-- `ClusterCacheTTL = 60 * time.Minute`, in nanoseconds. -/
def clusterCacheTTL : Duration := 3600000000000

/-- `ApplicationCacheTTL = 60 * time.Minute`, in nanoseconds. -/
def applicationCacheTTL : Duration := 3600000000000

/-- `GetCachedClusters`: `nil` when no entry is held or `time.Now()` is
strictly after `ExpiresAt`; otherwise the held entry. -/
def GetCachedClusters (s : AppState) (now : Time) : Option ClusterCache :=
  match s.clusterCache with
  | none => none
  | some c => if timeAfter now c.expiresAt then none else some c

/-- `GetCachedApplications`. -/
def GetCachedApplications (s : AppState) (now : Time) : Option ApplicationCache :=
  match s.applicationCache with
  | none => none
  | some c => if timeAfter now c.expiresAt then none else some c

/-- `SetClusterCache`: replace the entry with
`{items, CachedAt: now, ExpiresAt: now.Add(ttl)}` and persist it
(`writeClusterCacheToDisk`; a write failure would be logged and would not
roll the in-memory entry back, so the entry below is the post-state either
way). -/
def SetClusterCache (s : AppState) (items : List Cluster) (ttl : Duration) (now : Time) :
    AppState :=
  let entry : ClusterCache := ⟨items, now, now + ttl⟩
  { s with clusterCache := some entry,
           disk := { s.disk with clusterFile := FileState.content (encodeClusterCache entry) } }

/-- `SetApplicationCache`. -/
def SetApplicationCache (s : AppState) (items : List Application) (ttl : Duration) (now : Time) :
    AppState :=
  let entry : ApplicationCache := ⟨items, now, now + ttl⟩
  { s with applicationCache := some entry,
           disk := { s.disk with
                     applicationFile := FileState.content (encodeApplicationCache entry) } }

/-- Result of `os.Remove` on a cache file slot: removing a missing file
fails with an `IsNotExist` error, removing an existing one succeeds. -/
inductive RemoveError where
  | notExist : RemoveError
deriving DecidableEq, Repr

/-- `os.Remove` on one file slot: the slot afterwards, and the error. -/
def osRemove : FileState → FileState × Option RemoveError
  | FileState.missing => (FileState.missing, some RemoveError.notExist)
  | _ => (FileState.missing, none)

/-- Whether an `os.Remove` outcome trips the warning log in
`InvalidateClusterCache` (`err != nil && !os.IsNotExist(err)`). -/
def removeWarned : Option RemoveError → Bool
  | none => false
  | some RemoveError.notExist => false

/-- `InvalidateClusterCache`: clear the in-memory entry, best-effort delete
the disk file.  The `Bool` is whether the removal error was logged. -/
def InvalidateClusterCache (s : AppState) : AppState × Bool :=
  let r := osRemove s.disk.clusterFile
  ({ s with clusterCache := none, disk := { s.disk with clusterFile := r.1 } },
   removeWarned r.2)

/-- `InvalidateApplicationCache`. -/
def InvalidateApplicationCache (s : AppState) : AppState × Bool :=
  let r := osRemove s.disk.applicationFile
  ({ s with applicationCache := none, disk := { s.disk with applicationFile := r.1 } },
   removeWarned r.2)

/-- What one invocation of the injected fetch capability observes, covering
the two error exits of the refresh functions: `NewClusterClient` /
`NewApplicationClient` failing, the `List` call failing, or a fetched
item list. -/
inductive FetchOutcome (α : Type) where
  | clientError (e : String) : FetchOutcome α
  | listError (e : String) : FetchOutcome α
  | ok (items : List α) : FetchOutcome α
deriving DecidableEq, Repr

/-- `RefreshClusterCache`: on a fetch failure return the wrapped upstream
error and leave the state untouched; on success `SetClusterCache` with the
fixed TTL and return no error. -/
def RefreshClusterCache (s : AppState) (fetch : FetchOutcome Cluster) (now : Time) :
    AppState × Option String :=
  match fetch with
  | FetchOutcome.clientError e => (s, some ("failed to create cluster client: " ++ e))
  | FetchOutcome.listError e => (s, some ("failed to list clusters: " ++ e))
  | FetchOutcome.ok items => (SetClusterCache s items clusterCacheTTL now, none)

/-- `RefreshApplicationCache`. -/
def RefreshApplicationCache (s : AppState) (fetch : FetchOutcome Application) (now : Time) :
    AppState × Option String :=
  match fetch with
  | FetchOutcome.clientError e => (s, some ("failed to create application client: " ++ e))
  | FetchOutcome.listError e => (s, some ("failed to list applications: " ++ e))
  | FetchOutcome.ok items => (SetApplicationCache s items applicationCacheTTL now, none)

/-- `loadClusterCacheFromDisk`.  The `Bool` records whether the load path
invoked the upstream fetch (`RefreshClusterCache`).  A missing file and any
other read failure both fall to the refresh path; a document that fails to
unmarshal is logged and the load returns with the state untouched; a
decoded entry whose expiry is strictly past is removed and refreshed; a
decoded unexpired entry is adopted into memory. -/
def loadClusterCacheFromDisk (s : AppState) (fetch : FetchOutcome Cluster) (now : Time) :
    AppState × Bool :=
  match s.disk.clusterFile with
  | FileState.missing => ((RefreshClusterCache s fetch now).1, true)
  | FileState.readError => ((RefreshClusterCache s fetch now).1, true)
  | FileState.content j =>
    match decodeClusterCache j with
    | none => (s, false)
    | some cache =>
      if timeAfter now cache.expiresAt then
        let s' := { s with disk := { s.disk with clusterFile := (osRemove s.disk.clusterFile).1 } }
        ((RefreshClusterCache s' fetch now).1, true)
      else
        ({ s with clusterCache := some cache }, false)

/-- `loadApplicationCacheFromDisk`. -/
def loadApplicationCacheFromDisk (s : AppState) (fetch : FetchOutcome Application) (now : Time) :
    AppState × Bool :=
  match s.disk.applicationFile with
  | FileState.missing => ((RefreshApplicationCache s fetch now).1, true)
  | FileState.readError => ((RefreshApplicationCache s fetch now).1, true)
  | FileState.content j =>
    match decodeApplicationCache j with
    | none => (s, false)
    | some cache =>
      if timeAfter now cache.expiresAt then
        let s' := { s with disk := { s.disk with
                                     applicationFile := (osRemove s.disk.applicationFile).1 } }
        ((RefreshApplicationCache s' fetch now).1, true)
      else
        ({ s with applicationCache := some cache }, false)

/-- `hasServerChanged`: false on a missing file, on any other read error
and on an unmarshal error; otherwise whether the saved server differs from
the current one. -/
def hasServerChanged (s : AppState) : Bool :=
  match s.disk.serverConfigFile with
  | FileState.missing => false
  | FileState.readError => false
  | FileState.content j =>
    match decodeServerConfig j with
    | none => false
    | some cfg => cfg.server != s.argoServer

/-- `saveServerConfig`: overwrite the identity file with the current server
and `time.Now()` (a write failure would only be logged; the success path is
modelled). -/
def saveServerConfig (s : AppState) (now : Time) : AppState :=
  { s with disk := { s.disk with
      serverConfigFile := FileState.content (encodeServerConfig ⟨s.argoServer, now⟩) } }

/-- `deleteAllCaches`: remove both cache files and clear both in-memory
entries. -/
def deleteAllCaches (s : AppState) : AppState :=
  { s with clusterCache := none, applicationCache := none,
           disk := { s.disk with clusterFile := (osRemove s.disk.clusterFile).1,
                                 applicationFile := (osRemove s.disk.applicationFile).1 } }

/-- `NewAppContext`: start with empty in-memory caches over the given
directory, invalidate everything if the server identity drifted, persist
the current identity, then run both startup loads (each of which may
invoke its fetch capability once). -/
def NewAppContext (argoServer : String) (disk : Disk)
    (fetchClusters : FetchOutcome Cluster) (fetchApplications : FetchOutcome Application)
    (now : Time) : AppState :=
  let s0 : AppState := ⟨argoServer, none, none, disk⟩
  let s1 := if hasServerChanged s0 then deleteAllCaches s0 else s0
  let s2 := saveServerConfig s1 now
  let s3 := (loadClusterCacheFromDisk s2 fetchClusters now).1
  (loadApplicationCacheFromDisk s3 fetchApplications now).1

/-- The error exits of the two list handlers: the wrapped refresh error, or
the `cache is unexpectedly empty after refresh` branch. -/
inductive HandlerError where
  | refreshFailed (e : String) : HandlerError
  | cacheEmptyAfterRefresh : HandlerError
deriving DecidableEq, Repr

/-- Input of the `list_applications` tool (`ListApplicationsInput`); an
empty string means the filter is not set. -/
structure ListApplicationsInput where
  project : String
  metaNamespace : String
  cluster : String
deriving DecidableEq, Repr

/-- `filterApplications`: all applications when no filter is set, otherwise
those matching every set filter. -/
def filterApplications (apps : List Application) (input : ListApplicationsInput) :
    List Application :=
  if input.project = "" && input.metaNamespace = "" && input.cluster = "" then apps
  else apps.filter (fun app =>
    (input.project == "" || app.project == input.project) &&
    (input.metaNamespace == "" || app.metaNamespace == input.metaNamespace) &&
    (input.cluster == "" || app.destinationServer == input.cluster))

/-- The `list_clusters` handler body (`NewListClustersHandler`), one
sequential invocation at instant `now`: serve the cached items if the cache
is valid; otherwise refresh and serve the freshly cached items, or fail
with the wrapped refresh error, or fail on the empty-after-refresh branch. -/
def listClustersHandler (s : AppState) (fetch : FetchOutcome Cluster) (now : Time) :
    Except HandlerError (List Cluster) × AppState :=
  match GetCachedClusters s now with
  | some cached => (Except.ok cached.items, s)
  | none =>
    match RefreshClusterCache s fetch now with
    | (s', some e) => (Except.error (HandlerError.refreshFailed e), s')
    | (s', none) =>
      match GetCachedClusters s' now with
      | some cached => (Except.ok cached.items, s')
      | none => (Except.error HandlerError.cacheEmptyAfterRefresh, s')

/-- The `list_applications` handler body (`NewListApplicationsHandler`). -/
def listApplicationsHandler (s : AppState) (input : ListApplicationsInput)
    (fetch : FetchOutcome Application) (now : Time) :
    Except HandlerError (List Application) × AppState :=
  match GetCachedApplications s now with
  | some cached => (Except.ok (filterApplications cached.items input), s)
  | none =>
    match RefreshApplicationCache s fetch now with
    | (s', some e) => (Except.error (HandlerError.refreshFailed e), s')
    | (s', none) =>
      match GetCachedApplications s' now with
      | some cached => (Except.ok (filterApplications cached.items input), s')
      | none => (Except.error HandlerError.cacheEmptyAfterRefresh, s')

/-- A cluster record with the shape ArgoCD returns, used as concrete data. -/
def sampleCluster : Cluster := ⟨"in-cluster", "https://kubernetes.default.svc"⟩

/-- An application record with the shape ArgoCD returns. -/
def sampleApplication : Application :=
  ⟨"guestbook", "argocd", "default", "https://kubernetes.default.svc"⟩

/-- A context state with empty caches over an empty directory. -/
def emptyAppState : AppState :=
  ⟨"server:443", none, none, ⟨FileState.missing, FileState.missing, FileState.missing⟩⟩

/-- A startup state whose two cache files hold documents that fail to
unmarshal into a cache entry. -/
def corruptDiskState : AppState :=
  ⟨"server:443", none, none,
   ⟨FileState.content (Json.str "not a cache entry"),
    FileState.content (Json.str "not a cache entry"), FileState.missing⟩⟩

/-- A directory as left by a prior run against server `a:443`: a saved
identity and no cache files. -/
def sampleDiskSavedA : Disk :=
  ⟨FileState.missing, FileState.missing,
   FileState.content (encodeServerConfig ⟨"a:443", 0⟩)⟩

/-! ## Helper lemmas -/

@[simp]
theorem decodeCluster_encodeCluster (c : Cluster) : decodeCluster (encodeCluster c) = some c := by
  cases c
  rfl

@[simp]
theorem decodeApplication_encodeApplication (a : Application) :
    decodeApplication (encodeApplication a) = some a := by
  cases a
  rfl

@[simp]
theorem decodeClusterArray_encode (items : List Cluster) :
    decodeClusterArray (items.map encodeCluster) = some items := by
  induction items with
  | nil => rfl
  | cons c rest ih => simp [decodeClusterArray, ih]

@[simp]
theorem decodeApplicationArray_encode (items : List Application) :
    decodeApplicationArray (items.map encodeApplication) = some items := by
  induction items with
  | nil => rfl
  | cons a rest ih => simp [decodeApplicationArray, ih]

@[simp]
theorem decodeClusterItems_encode (items : List Cluster) :
    decodeClusterItems (Json.arr (items.map encodeCluster)) = some items := by
  simp [decodeClusterItems]

@[simp]
theorem decodeApplicationItems_encode (items : List Application) :
    decodeApplicationItems (Json.arr (items.map encodeApplication)) = some items := by
  simp [decodeApplicationItems]

theorem decodeClusterCache_encode (c : ClusterCache) :
    decodeClusterCache (encodeClusterCache c) = some c := by
  cases c with
  | mk items ca ea =>
    simp [encodeClusterCache, decodeClusterCache, jsonGetField, decodeTimeField]

theorem decodeApplicationCache_encode (a : ApplicationCache) :
    decodeApplicationCache (encodeApplicationCache a) = some a := by
  cases a with
  | mk items ca ea =>
    simp [encodeApplicationCache, decodeApplicationCache, jsonGetField, decodeTimeField]

theorem decodeServerConfig_encode (cfg : ServerConfig) :
    decodeServerConfig (encodeServerConfig cfg) = some cfg := by
  cases cfg
  rfl

/-! ## Claim theorems -/

/-- Claim C4 (confirmed).  For every state of a resource cache, when the
upstream fetch fails — at client construction or at the list call —
`refresh` returns the upstream error wrapped with context and leaves the
whole state (in-memory entry and disk) exactly as it was; when the fetch
succeeds, `refresh` performs `set(items, ttl)` with the fixed TTL and
returns no error.  Both resource types. -/
theorem refresh_error_frame_success_sets (s : AppState) (e : String)
    (cs : List Cluster) (apps : List Application) (now : Time) :
    RefreshClusterCache s (FetchOutcome.clientError e) now
        = (s, some ("failed to create cluster client: " ++ e)) ∧
    RefreshClusterCache s (FetchOutcome.listError e) now
        = (s, some ("failed to list clusters: " ++ e)) ∧
    RefreshClusterCache s (FetchOutcome.ok cs) now
        = (SetClusterCache s cs clusterCacheTTL now, none) ∧
    RefreshApplicationCache s (FetchOutcome.clientError e) now
        = (s, some ("failed to create application client: " ++ e)) ∧
    RefreshApplicationCache s (FetchOutcome.listError e) now
        = (s, some ("failed to list applications: " ++ e)) ∧
    RefreshApplicationCache s (FetchOutcome.ok apps) now
        = (SetApplicationCache s apps applicationCacheTTL now, none) :=
  ⟨rfl, rfl, rfl, rfl, rfl, rfl⟩

/-- Claim C6 (confirmed).  `hasServerChanged` is false on a missing
identity file, false on a read error, and on a held document it is true
exactly when the document decodes to a saved identity whose endpoint
differs from the current one (so false on a decode error). -/
theorem hasServerChanged_spec (server : String) (cc : Option ClusterCache)
    (ac : Option ApplicationCache) (cf af : FileState) (j : Json) :
    hasServerChanged ⟨server, cc, ac, ⟨cf, af, FileState.missing⟩⟩ = false ∧
    hasServerChanged ⟨server, cc, ac, ⟨cf, af, FileState.readError⟩⟩ = false ∧
    hasServerChanged ⟨server, cc, ac, ⟨cf, af, FileState.content j⟩⟩ =
      (match decodeServerConfig j with
       | none => false
       | some cfg => cfg.server != server) :=
  ⟨rfl, rfl, rfl⟩

/-- Claim C7 (confirmed).  Decoding the document produced by encoding a
cache entry returns the entry itself, for empty and non-empty item
collections of either resource type. -/
theorem cache_encode_decode_round_trip (c : ClusterCache) (a : ApplicationCache) :
    decodeClusterCache (encodeClusterCache c) = some c ∧
    decodeApplicationCache (encodeApplicationCache a) = some a :=
  ⟨decodeClusterCache_encode c, decodeApplicationCache_encode a⟩

/-- Claim C8 (confirmed).  Invalidating one resource cache leaves the other
resource cache's in-memory entry (hence presence, items and both
timestamps), its disk file, and what `get` observes at every instant
unchanged. -/
theorem invalidate_frame_other_cache (s : AppState) (t : Time) :
    (InvalidateClusterCache s).1.applicationCache = s.applicationCache ∧
    (InvalidateClusterCache s).1.disk.applicationFile = s.disk.applicationFile ∧
    GetCachedApplications (InvalidateClusterCache s).1 t = GetCachedApplications s t ∧
    (InvalidateApplicationCache s).1.clusterCache = s.clusterCache ∧
    (InvalidateApplicationCache s).1.disk.clusterFile = s.disk.clusterFile ∧
    GetCachedClusters (InvalidateApplicationCache s).1 t = GetCachedClusters s t :=
  ⟨rfl, rfl, rfl, rfl, rfl, rfl⟩

/-- Claim C9 (confirmed).  Invalidating a resource cache twice in a row
ends in the same state as invalidating it once; both calls leave the entry
absent and neither logs a removal error (a missing disk file is filtered by
`os.IsNotExist`). -/
theorem invalidate_idempotent_no_error (s : AppState) :
    InvalidateClusterCache (InvalidateClusterCache s).1 = ((InvalidateClusterCache s).1, false) ∧
    (InvalidateClusterCache s).1.clusterCache = none ∧
    (InvalidateClusterCache s).2 = false ∧
    InvalidateApplicationCache (InvalidateApplicationCache s).1
        = ((InvalidateApplicationCache s).1, false) ∧
    (InvalidateApplicationCache s).1.applicationCache = none ∧
    (InvalidateApplicationCache s).2 = false := by
  obtain ⟨sv, cc, ac, cf, af, scf⟩ := s
  cases cf <;> cases af <;> exact ⟨rfl, rfl, rfl, rfl, rfl, rfl⟩

/-- Claim C1 (counterexample).  The claim says `get` returns absent at
every `t ≥ cached_at + d`, in particular exactly at `t = expires_at`; but
`get` tests `time.Now().After(ExpiresAt)`, which is strict, so after
`set(items, 100)` at instant `0` a `get` at instant `100 = expires_at`
still returns the entry — for both caches. -/
theorem get_at_expiry_returns_entry_counterexample :
    GetCachedClusters (SetClusterCache emptyAppState [sampleCluster] 100 0) 100
        = some ⟨[sampleCluster], 0, 100⟩ ∧
    GetCachedApplications (SetApplicationCache emptyAppState [sampleApplication] 100 0) 100
        = some ⟨[sampleApplication], 0, 100⟩ :=
  ⟨rfl, rfl⟩

/-- Claim C1 (amended).  After `set(items, d)` at instant `now`, `get`
returns the installed entry at every observation instant `t ≤ cached_at +
d` — including exactly at `t = expires_at` — and returns absent at every
`t > cached_at + d`; for both the cluster cache and the application
cache. -/
theorem get_after_set_ttl_window (s : AppState) (cs : List Cluster)
    (apps : List Application) (d : Duration) (now t : Time) :
    GetCachedClusters (SetClusterCache s cs d now) t
        = (if t ≤ now + d then some ⟨cs, now, now + d⟩ else none) ∧
    GetCachedApplications (SetApplicationCache s apps d now) t
        = (if t ≤ now + d then some ⟨apps, now, now + d⟩ else none) := by
  rcases le_or_lt t (now + d) with h | h
  · simp [GetCachedClusters, GetCachedApplications, SetClusterCache, SetApplicationCache,
      timeAfter, not_lt.2 h, h]
  · simp [GetCachedClusters, GetCachedApplications, SetClusterCache, SetApplicationCache,
      timeAfter, h, not_le.2 h]

/-- Claim C5 (counterexample).  The claim asserts `expires_at > cached_at`
for entries created by `set` with any TTL, and validity exactly when the
observation time is strictly before `expires_at`.  `set` with TTL `0` at
instant `5` installs an entry with `expires_at = cached_at = 5`, and `get`
at instant `5` (not strictly before `expires_at`) still returns it. -/
theorem zero_ttl_entry_invariant_counterexample :
    (SetClusterCache emptyAppState [sampleCluster] 0 5).clusterCache
        = some ⟨[sampleCluster], 5, 5⟩ ∧
    GetCachedClusters (SetClusterCache emptyAppState [sampleCluster] 0 5) 5
        = some ⟨[sampleCluster], 5, 5⟩ :=
  ⟨rfl, rfl⟩

/-- Claim C5 (amended).  Entries created by `set` with a positive TTL
satisfy `expires_at > cached_at` (a zero or negative TTL violates it, and
an entry adopted from a decoded disk file carries whatever timestamps the
file held); a held entry is returned by `get` exactly when the observation
time is at most `expires_at` — valid iff `now ≤ expires_at`, not iff
strictly before. -/
theorem entry_invariant_positive_ttl_validity_boundary (s : AppState)
    (cs : List Cluster) (apps : List Application) (ttl : Duration) (now t : Time)
    (c : ClusterCache) (a : ApplicationCache) :
    (0 < ttl → (SetClusterCache s cs ttl now).clusterCache = some ⟨cs, now, now + ttl⟩
        ∧ now < now + ttl) ∧
    (0 < ttl → (SetApplicationCache s apps ttl now).applicationCache
        = some ⟨apps, now, now + ttl⟩ ∧ now < now + ttl) ∧
    (s.clusterCache = some c → (GetCachedClusters s t = some c ↔ t ≤ c.expiresAt)) ∧
    (s.applicationCache = some a →
        (GetCachedApplications s t = some a ↔ t ≤ a.expiresAt)) := by
  refine ⟨?_, ?_, fun hc => ?_, fun ha => ?_⟩
  · intro h
    exact ⟨rfl, lt_add_of_pos_right now h⟩
  · intro h
    exact ⟨rfl, lt_add_of_pos_right now h⟩
  · rcases le_or_lt t c.expiresAt with h | h
    · simp [GetCachedClusters, hc, timeAfter, not_lt.2 h, h]
    · simp [GetCachedClusters, hc, timeAfter, h, not_le.2 h]
  · rcases le_or_lt t a.expiresAt with h | h
    · simp [GetCachedApplications, ha, timeAfter, not_lt.2 h, h]
    · simp [GetCachedApplications, ha, timeAfter, h, not_le.2 h]

/-- Witness for the amended C5 theorem: instantiated at TTL `1`, a state
holding entries that expire at instant `10`, and observation instant `5`. -/
theorem entry_invariant_positive_ttl_validity_boundary_witness :
    ((SetClusterCache emptyAppState [sampleCluster] 1 0).clusterCache
          = some ⟨[sampleCluster], 0, 1⟩ ∧ (0 : Time) < 0 + 1) ∧
    ((SetApplicationCache emptyAppState [sampleApplication] 1 0).applicationCache
          = some ⟨[sampleApplication], 0, 1⟩ ∧ (0 : Time) < 0 + 1) ∧
    (GetCachedClusters
          ⟨"server:443", some ⟨[sampleCluster], 0, 10⟩, some ⟨[sampleApplication], 0, 10⟩,
            ⟨FileState.missing, FileState.missing, FileState.missing⟩⟩ 5
        = some ⟨[sampleCluster], 0, 10⟩ ↔ (5 : Time) ≤ 10) ∧
    (GetCachedApplications
          ⟨"server:443", some ⟨[sampleCluster], 0, 10⟩, some ⟨[sampleApplication], 0, 10⟩,
            ⟨FileState.missing, FileState.missing, FileState.missing⟩⟩ 5
        = some ⟨[sampleApplication], 0, 10⟩ ↔ (5 : Time) ≤ 10) := by
  have h := entry_invariant_positive_ttl_validity_boundary
    ⟨"server:443", some ⟨[sampleCluster], 0, 10⟩, some ⟨[sampleApplication], 0, 10⟩,
      ⟨FileState.missing, FileState.missing, FileState.missing⟩⟩
    [sampleCluster] [sampleApplication] 1 0 5 ⟨[sampleCluster], 0, 10⟩
    ⟨[sampleApplication], 0, 10⟩
  exact ⟨h.1 (by decide), h.2.1 (by decide), h.2.2.1 rfl, h.2.2.2 rfl⟩

/-- Claim C3 (counterexample).  The claim says a cache file that fails to
decode triggers a fresh fetch for that resource type; but the load function
returns right after the failed unmarshal without calling `refresh`: with a
succeeding fetch capability on offer, the load over a corrupt file reports
that the fetch was not invoked (`false`) for both resource types, and
leaves the in-memory caches absent. -/
theorem decode_failure_triggers_no_fetch_counterexample :
    loadClusterCacheFromDisk corruptDiskState (FetchOutcome.ok [sampleCluster]) 0
        = (corruptDiskState, false) ∧
    loadApplicationCacheFromDisk corruptDiskState (FetchOutcome.ok [sampleApplication]) 0
        = (corruptDiskState, false) ∧
    corruptDiskState.clusterCache = none ∧
    corruptDiskState.applicationCache = none :=
  ⟨rfl, rfl, rfl, rfl⟩

/-- Claim C3 (amended).  For every startup load where the on-disk cache
file exists but fails to decode, the load logs the failure and returns with
the state untouched — the cache stays absent (it is nil at construction)
and no fetch is triggered during that load, so population is deferred to
the first request; the process does not crash (the load is a total
function). -/
theorem startup_decode_failure_absent_no_fetch (s : AppState) (j j' : Json)
    (fc : FetchOutcome Cluster) (fa : FetchOutcome Application) (now : Time) :
    (s.disk.clusterFile = FileState.content j → decodeClusterCache j = none →
        loadClusterCacheFromDisk s fc now = (s, false)) ∧
    (s.disk.applicationFile = FileState.content j' → decodeApplicationCache j' = none →
        loadApplicationCacheFromDisk s fa now = (s, false)) := by
  constructor
  · intro h1 h2
    simp [loadClusterCacheFromDisk, h1, h2]
  · intro h1 h2
    simp [loadApplicationCacheFromDisk, h1, h2]

/-- Witness for the amended C3 theorem: instantiated on the corrupt-file
startup state, with decode failure discharged by evaluation. -/
theorem startup_decode_failure_absent_no_fetch_witness :
    loadClusterCacheFromDisk corruptDiskState (FetchOutcome.ok [sampleCluster]) 7
        = (corruptDiskState, false) ∧
    loadApplicationCacheFromDisk corruptDiskState (FetchOutcome.ok [sampleApplication]) 7
        = (corruptDiskState, false) := by
  have h := startup_decode_failure_absent_no_fetch corruptDiskState
    (Json.str "not a cache entry") (Json.str "not a cache entry")
    (FetchOutcome.ok [sampleCluster]) (FetchOutcome.ok [sampleApplication]) 7
  exact ⟨h.1 rfl rfl, h.2 rfl rfl⟩

/-- Claim C2 (counterexample).  The claim says that after construction with
an endpoint differing from the saved identity, every registered cache is
empty; but construction re-runs the startup loads, whose missing-file path
refreshes from upstream — with succeeding fetches, `get` returns freshly
fetched entries immediately after construction, not absent.  (`hasChanged`
does return true.) -/
theorem identity_change_cache_populated_counterexample :
    hasServerChanged ⟨"b:443", none, none, sampleDiskSavedA⟩ = true ∧
    GetCachedClusters
        (NewAppContext "b:443" sampleDiskSavedA (FetchOutcome.ok [sampleCluster])
          (FetchOutcome.ok [sampleApplication]) 0) 0
        = some ⟨[sampleCluster], 0, 3600000000000⟩ ∧
    GetCachedApplications
        (NewAppContext "b:443" sampleDiskSavedA (FetchOutcome.ok [sampleCluster])
          (FetchOutcome.ok [sampleApplication]) 0) 0
        = some ⟨[sampleApplication], 0, 3600000000000⟩ :=
  ⟨rfl, rfl, rfl⟩

/-- Claim C2 (amended).  With a saved identity `a:443` and current endpoint
`b:443`, `hasChanged` returns true and construction discards all previously
persisted cache state; immediately after construction a registered cache is
empty when its startup refresh fetch failed, and otherwise holds the
freshly fetched entry (never a prior one). -/
theorem identity_change_invalidates_then_reloads (cf af : FileState)
    (sa now t : Time) (ce le : String) (cs : List Cluster) (apps : List Application) :
    hasServerChanged
        ⟨"b:443", none, none, ⟨cf, af, FileState.content (encodeServerConfig ⟨"a:443", sa⟩)⟩⟩
        = true ∧
    GetCachedClusters
        (NewAppContext "b:443" ⟨cf, af, FileState.content (encodeServerConfig ⟨"a:443", sa⟩)⟩
          (FetchOutcome.clientError ce) (FetchOutcome.listError le) now) t = none ∧
    GetCachedApplications
        (NewAppContext "b:443" ⟨cf, af, FileState.content (encodeServerConfig ⟨"a:443", sa⟩)⟩
          (FetchOutcome.clientError ce) (FetchOutcome.listError le) now) t = none ∧
    (NewAppContext "b:443" ⟨cf, af, FileState.content (encodeServerConfig ⟨"a:443", sa⟩)⟩
          (FetchOutcome.ok cs) (FetchOutcome.ok apps) now).clusterCache
        = some ⟨cs, now, now + clusterCacheTTL⟩ ∧
    (NewAppContext "b:443" ⟨cf, af, FileState.content (encodeServerConfig ⟨"a:443", sa⟩)⟩
          (FetchOutcome.ok cs) (FetchOutcome.ok apps) now).applicationCache
        = some ⟨apps, now, now + applicationCacheTTL⟩ := by
  cases cf <;> cases af <;> exact ⟨rfl, rfl, rfl, rfl, rfl⟩

/-- Claim C10 (confirmed).  One sequential invocation of a list handler is
modelled at a single instant.  Whenever `refresh` returns no error it has
installed an entry expiring a full positive TTL later, so the immediately
following `get` returns it; consequently neither handler can ever return
the `cache is unexpectedly empty after refresh` error. -/
theorem handler_empty_after_refresh_unreachable (s : AppState)
    (fc : FetchOutcome Cluster) (fa : FetchOutcome Application)
    (input : ListApplicationsInput) (now : Time) :
    ((RefreshClusterCache s fc now).2 = none →
        GetCachedClusters (RefreshClusterCache s fc now).1 now ≠ none) ∧
    (listClustersHandler s fc now).1 ≠ Except.error HandlerError.cacheEmptyAfterRefresh ∧
    ((RefreshApplicationCache s fa now).2 = none →
        GetCachedApplications (RefreshApplicationCache s fa now).1 now ≠ none) ∧
    (listApplicationsHandler s input fa now).1
        ≠ Except.error HandlerError.cacheEmptyAfterRefresh := by
  have hleC : now ≤ now + clusterCacheTTL := le_add_of_nonneg_right (by norm_num [clusterCacheTTL, applicationCacheTTL])
  have hleA : now ≤ now + applicationCacheTTL := le_add_of_nonneg_right (by norm_num [clusterCacheTTL, applicationCacheTTL])
  have hC : ∀ (x : AppState) (items : List Cluster),
      GetCachedClusters (SetClusterCache x items clusterCacheTTL now) now
        = some ⟨items, now, now + clusterCacheTTL⟩ := by
    intro x items
    simp [GetCachedClusters, SetClusterCache, timeAfter, not_lt.2 hleC]
  have hA : ∀ (x : AppState) (items : List Application),
      GetCachedApplications (SetApplicationCache x items applicationCacheTTL now) now
        = some ⟨items, now, now + applicationCacheTTL⟩ := by
    intro x items
    simp [GetCachedApplications, SetApplicationCache, timeAfter, not_lt.2 hleA]
  refine ⟨?_, ?_, ?_, ?_⟩
  · cases fc with
    | clientError e =>
        intro h
        simp [RefreshClusterCache] at h
    | listError e =>
        intro h
        simp [RefreshClusterCache] at h
    | ok items =>
        intro _
        simp [RefreshClusterCache, hC]
  · rcases hg : GetCachedClusters s now with _ | c
    · cases fc with
      | clientError e => simp [listClustersHandler, hg, RefreshClusterCache]
      | listError e => simp [listClustersHandler, hg, RefreshClusterCache]
      | ok items => simp [listClustersHandler, hg, RefreshClusterCache, hC]
    · simp [listClustersHandler, hg]
  · cases fa with
    | clientError e =>
        intro h
        simp [RefreshApplicationCache] at h
    | listError e =>
        intro h
        simp [RefreshApplicationCache] at h
    | ok items =>
        intro _
        simp [RefreshApplicationCache, hA]
  · rcases hg : GetCachedApplications s now with _ | c
    · cases fa with
      | clientError e => simp [listApplicationsHandler, hg, RefreshApplicationCache]
      | listError e => simp [listApplicationsHandler, hg, RefreshApplicationCache]
      | ok items => simp [listApplicationsHandler, hg, RefreshApplicationCache, hA]
    · simp [listApplicationsHandler, hg]

/-- Witness for the C10 theorem: a cold state with a succeeding fetch, with
the no-error hypothesis of each refresh clause discharged by evaluation. -/
theorem handler_empty_after_refresh_unreachable_witness :
    GetCachedClusters (RefreshClusterCache emptyAppState (FetchOutcome.ok [sampleCluster]) 0).1 0
        ≠ none ∧
    (listClustersHandler emptyAppState (FetchOutcome.ok [sampleCluster]) 0).1
        ≠ Except.error HandlerError.cacheEmptyAfterRefresh ∧
    GetCachedApplications
        (RefreshApplicationCache emptyAppState (FetchOutcome.ok [sampleApplication]) 0).1 0
        ≠ none ∧
    (listApplicationsHandler emptyAppState ⟨"", "", ""⟩ (FetchOutcome.ok [sampleApplication]) 0).1
        ≠ Except.error HandlerError.cacheEmptyAfterRefresh := by
  have h := handler_empty_after_refresh_unreachable emptyAppState
    (FetchOutcome.ok [sampleCluster]) (FetchOutcome.ok [sampleApplication]) ⟨"", "", ""⟩ 0
  exact ⟨h.1 rfl, h.2.1, h.2.2.1 rfl, h.2.2.2⟩

end GoMcp
